import Mathlib

/-!
Shallow embedding of the `service-injector` dependency-injection container
(`src/lib/injector.ts`, `src/lib/constants.ts`).

Modelling choices, each traceable to the source:

* Service keys are JavaScript `unique symbol`s; we model them as `Nat`
  tokens compared by identity (symbols never compare equal unless they are
  the same token).
* JavaScript values relevant to the container are modelled by `Value`:
  heap objects carry an allocation id (strict equality `===` on objects is
  identity of the allocation), plus the primitive values that matter for
  the truthiness checks in `get` (`null`, `undefined`, booleans, numbers
  with `NaN` kept separate because `NaN === NaN` is `false`, strings).
* The mutable world is threaded explicitly: the static
  `ServiceInjector.globalCache` field and the allocation counter live in
  `GlobalState`; each `ServiceInjector` object carries its own `factories`
  map and `cache` map (JavaScript objects, modelled as association lists
  where the most recent binding shadows older ones, matching property
  assignment / spread-override semantics).
* The static field `globalCache` is *declared without an initializer* in
  the source (`private static globalCache: {[K in symbol]: unknown};`) and
  no code ever assigns an object to it, so reading it yields `undefined`;
  we model the field as `Option (List (Nat × Value))` and indexing into
  `none` as a host-level `TypeError`, exactly as `undefined[key]` throws.
* Exceptions are values of `JsError`; a function that throws returns
  `Except.error` together with the state at the moment of the throw
  (JavaScript exceptions do not roll back mutations).
* Recursive resolution can diverge on cyclic graphs (the source has no
  cycle detection), so `get` takes fuel; exhausting fuel models stack
  overflow.
-/

/-- Lifecycle enum from `src/lib/constants.ts`. -/
inductive Lifecycle where
  | GlobalSingleton
  | LocalSingleton
  | Ephemeral
deriving DecidableEq

/-- JavaScript runtime values as far as the container observes them. -/
inductive Value where
  | obj (id : Nat)
  | vnull
  | vundef
  | vbool (b : Bool)
  | vnat (n : Nat)
  | vnan
  | vstr (s : String)
deriving DecidableEq

/-- JavaScript truthiness, as used by `if (maybeGlobal)` / `if (maybeLocal)`
in `ServiceInjector.get`. -/
def truthy : Value → Bool
  | .obj _ => true
  | .vnull => false
  | .vundef => false
  | .vbool b => b
  | .vnat n => n != 0
  | .vnan => false
  | .vstr s => s != ""

/-- JavaScript strict equality `===` on the modelled values: objects compare
by allocation identity, `NaN` is not strictly equal to anything (including
itself), primitives compare structurally, distinct types never compare
equal. -/
def strictEq : Value → Value → Bool
  | .obj i, .obj j => i == j
  | .vnan, _ => false
  | _, .vnan => false
  | .vnull, .vnull => true
  | .vundef, .vundef => true
  | .vbool a, .vbool b => a == b
  | .vnat a, .vnat b => a == b
  | .vstr a, .vstr b => a == b
  | _, _ => false

/-- Exceptions that can escape the container. `typeError` is the host-level
`TypeError` (undefined dereference, or `ToString` applied to a Symbol);
`missingDependency` is the library's `MissingDependencyError`;
`userError n` is an arbitrary exception thrown by user factory code;
`stackOverflow` models exhausting the call stack on cyclic resolution. -/
inductive JsError where
  | typeError
  | stackOverflow
  | missingDependency (msg : String)
  | userError (n : Nat)
deriving DecidableEq

/-- A factory function: receives the resolved dependency values (in the
declared order) and, because user code may allocate, a fresh allocation id;
it may throw. A factory that allocates a new object returns `.obj fid`. -/
def Factory : Type := List Value → Nat → Except JsError Value

/-- Association-list lookup modelling JavaScript property access on the
object maps used by the injector; the most recent binding (list head)
shadows older ones, matching spread-override and property assignment. -/
def lookupKV {α : Type} : List (Nat × α) → Nat → Option α
  | [], _ => none
  | (k, v) :: rest, key => if key = k then some v else lookupKV rest key

/-- The per-key registration record stored in `this.factories`
(`lifecycle`, `deps`, `factory` — see `registerFactory`, lines 121-131). -/
structure Descriptor where
  lifecycle : Lifecycle
  deps : List Nat
  factory : Factory

/-- One `ServiceInjector` object: its `factories` map and its instance-level
`cache` map for `LocalSingleton` instances. -/
structure ServiceInjector where
  factories : List (Nat × Descriptor)
  cache : List (Nat × Value)

/-- Process-wide mutable state: the static `globalCache` field (declared
without an initializer, hence `Option`, starting as `none` = `undefined`)
and the allocation counter supplying fresh object identities. -/
structure GlobalState where
  globalCache : Option (List (Nat × Value))
  nextId : Nat
deriving DecidableEq

/-- Lookup through the possibly-`undefined` global cache; reading a property
of `undefined` is not represented here (the caller handles that case), this
is only a convenience for stating theorems about cache contents. -/
def optLookup (o : Option (List (Nat × Value))) (k : Nat) : Option Value :=
  match o with
  | none => none
  | some l => lookupKV l k

/-- The initial process state: the static `globalCache` field starts out
`undefined` (the source never initializes it) and no object has been
allocated yet. -/
def initState : GlobalState := ⟨none, 0⟩

/-- The root registry produced by `getRoot`: no factories, empty cache
(`new ServiceInjector({}, {})`, line 63). -/
def rootRegistry : ServiceInjector := ⟨[], []⟩

/-- ECMAScript `ToString` applied to a Symbol throws a `TypeError`
("Cannot convert a Symbol value to a string"); this is what a
template-literal substitution `${dep}` performs on a symbol-valued `dep`. -/
def toStringOfSymbol (_s : Nat) : Except JsError String :=
  .error .typeError

/-- The dependency-check loop of `registerFactory` (lines 114-120): walk
`deps` in declared order and report the first one with no entry in
`this.factories`. -/
def firstMissingDep (factories : List (Nat × Descriptor)) : List Nat → Option Nat
  | [] => none
  | d :: ds =>
    if (lookupKV factories d).isNone then some d else firstMissingDep factories ds

/-- `ServiceInjector.registerFactory` (lines 102-132): check that every
declared dependency is already registered — the first absent one triggers
`throw new MissingDependencyError(` followed by a template literal that
stringifies the symbol `dep`, which itself throws a `TypeError` before the
`MissingDependencyError` can be constructed — then build a fresh injector
whose `factories` is the old map plus the new entry (spread + override) and
whose `cache` is a shallow copy of the current cache (line 130). -/
def ServiceInjector.registerFactory (r : ServiceInjector) (key : Nat)
    (deps : List Nat) (factory : Factory) (lifecycle : Lifecycle) :
    Except JsError ServiceInjector :=
  match firstMissingDep r.factories deps with
  | some d =>
    match toStringOfSymbol d with
    | .error e => .error e
    | .ok msg => .error (.missingDependency msg)
  | none => .ok ⟨(key, ⟨lifecycle, deps, factory⟩) :: r.factories, r.cache⟩

/-- `ServiceInjector.fork` (lines 75-80): a new injector with shallow copies
of `this.factories` and `this.cache`. -/
def ServiceInjector.fork (r : ServiceInjector) : ServiceInjector :=
  ⟨r.factories, r.cache⟩

/-- `depKeys.map((key) => this.get(key))` (line 185): resolve the declared
dependencies left to right, threading the mutating injector and global
state, stopping at the first thrown error. Parameterized by the
one-step-deeper `get` so the definition is structurally recursive. -/
def resolveDepsWith
    (getOne : ServiceInjector → GlobalState → Nat →
      Except JsError Value × ServiceInjector × GlobalState) :
    ServiceInjector → GlobalState → List Nat →
      Except JsError (List Value) × ServiceInjector × GlobalState
  | r, g, [] => (.ok [], r, g)
  | r, g, d :: ds =>
    match getOne r g d with
    | (.ok v, r1, g1) =>
      match resolveDepsWith getOne r1 g1 ds with
      | (.ok vs, r2, g2) => (.ok (v :: vs), r2, g2)
      | (.error e, r2, g2) => (.error e, r2, g2)
    | (.error e, r1, g1) => (.error e, r1, g1)

/-- The cache-miss path of `get` (lines 185-192): resolve the dependencies
in declared order, invoke the factory with the resolved values positionally
(consuming a fresh allocation id), then commit the instance to the global
cache (`GlobalSingleton` — note the store `ServiceInjector.globalCache[key]
= instance` throws a `TypeError` if the static field is still `undefined`)
or to the instance cache (`LocalSingleton`), or to no cache (`Ephemeral`). -/
def constructWith
    (getOne : ServiceInjector → GlobalState → Nat →
      Except JsError Value × ServiceInjector × GlobalState)
    (r : ServiceInjector) (g : GlobalState) (key : Nat) (dsc : Descriptor) :
    Except JsError Value × ServiceInjector × GlobalState :=
  match resolveDepsWith getOne r g dsc.deps with
  | (.error e, r1, g1) => (.error e, r1, g1)
  | (.ok vs, r1, g1) =>
    let g2 : GlobalState := ⟨g1.globalCache, g1.nextId + 1⟩
    match dsc.factory vs g1.nextId with
    | .error e => (.error e, r1, g2)
    | .ok inst =>
      match dsc.lifecycle with
      | .GlobalSingleton =>
        match g2.globalCache with
        | none => (.error .typeError, r1, g2)
        | some gc =>
          (.ok inst, r1, ⟨some ((key, inst) :: gc), g2.nextId⟩)
      | .LocalSingleton =>
        (.ok inst, ⟨r1.factories, (key, inst) :: r1.cache⟩, g2)
      | .Ephemeral => (.ok inst, r1, g2)

/-- `ServiceInjector.get` (lines 172-193), with fuel bounding the recursion
depth. Destructuring a missing descriptor throws a `TypeError`
(`this.factories[key]` is `undefined`). For `GlobalSingleton`, the read
`ServiceInjector.globalCache[key]` throws a `TypeError` when the static
field is still `undefined`; otherwise a cached value counts as a hit only
if it is truthy (`if (maybeGlobal)`). `LocalSingleton` checks `this.cache`
the same way. On a miss the construction path runs. -/
def getFuel : Nat → ServiceInjector → GlobalState → Nat →
    Except JsError Value × ServiceInjector × GlobalState
  | 0, r, g, _ => (.error .stackOverflow, r, g)
  | fuel + 1, r, g, key =>
    match lookupKV r.factories key with
    | none => (.error .typeError, r, g)
    | some dsc =>
      match dsc.lifecycle with
      | .GlobalSingleton =>
        match g.globalCache with
        | none => (.error .typeError, r, g)
        | some gc =>
          match lookupKV gc key with
          | some v =>
            if truthy v then (.ok v, r, g)
            else constructWith (fun r' g' k => getFuel fuel r' g' k) r g key dsc
          | none => constructWith (fun r' g' k => getFuel fuel r' g' k) r g key dsc
      | .LocalSingleton =>
        match lookupKV r.cache key with
        | some v =>
          if truthy v then (.ok v, r, g)
          else constructWith (fun r' g' k => getFuel fuel r' g' k) r g key dsc
        | none => constructWith (fun r' g' k => getFuel fuel r' g' k) r g key dsc
      | .Ephemeral => constructWith (fun r' g' k => getFuel fuel r' g' k) r g key dsc

/-- `ServiceInjector.make` (lines 201-207): resolve the given keys via
`get` on this injector, then invoke the ad-hoc factory with the resolved
values; nothing is registered and nothing is cached for the result. -/
def makeFuel (fuel : Nat) (r : ServiceInjector) (g : GlobalState)
    (depKeys : List Nat) (factory : Factory) :
    Except JsError Value × ServiceInjector × GlobalState :=
  match resolveDepsWith (fun r' g' k => getFuel fuel r' g' k) r g depKeys with
  | (.error e, r1, g1) => (.error e, r1, g1)
  | (.ok vs, r1, g1) => (factory vs g1.nextId, r1, ⟨g1.globalCache, g1.nextId + 1⟩)

/-! ## State-evolution invariant

`Evolves r g r' g'` collects the facts preserved by every container
operation starting from injector `r` and process state `g`: the factories
map of the injector object is never mutated, the allocation counter only
grows, a still-`undefined` global cache stays `undefined` (no code path
ever assigns an object to the static field), and no cache — local or
global — ever gains or changes an entry under a key whose registered
lifecycle is `Ephemeral`. -/

def Evolves (r : ServiceInjector) (g : GlobalState)
    (r' : ServiceInjector) (g' : GlobalState) : Prop :=
  r'.factories = r.factories ∧
  g.nextId ≤ g'.nextId ∧
  (g.globalCache = none → g'.globalCache = none) ∧
  ∀ j dj, lookupKV r.factories j = some dj → dj.lifecycle = .Ephemeral →
    lookupKV r'.cache j = lookupKV r.cache j ∧
    optLookup g'.globalCache j = optLookup g.globalCache j

lemma evolves_refl (r : ServiceInjector) (g : GlobalState) : Evolves r g r g :=
  ⟨rfl, Nat.le_refl _, fun h => h, fun _ _ _ _ => ⟨rfl, rfl⟩⟩

lemma evolves_trans {r g r1 g1 r2 g2} (h1 : Evolves r g r1 g1)
    (h2 : Evolves r1 g1 r2 g2) : Evolves r g r2 g2 := by
  obtain ⟨hf1, hn1, hgc1, he1⟩ := h1
  obtain ⟨hf2, hn2, hgc2, he2⟩ := h2
  refine ⟨hf2.trans hf1, Nat.le_trans hn1 hn2, fun h => hgc2 (hgc1 h),
    fun j dj hj hje => ?_⟩
  have hj1 : lookupKV r1.factories j = some dj := by rw [hf1]; exact hj
  obtain ⟨hc2, hg2⟩ := he2 j dj hj1 hje
  obtain ⟨hc1, hg1⟩ := he1 j dj hj hje
  exact ⟨hc2.trans hc1, hg2.trans hg1⟩

lemma evolves_bump {r1 : ServiceInjector} {g1 : GlobalState} :
    Evolves r1 g1 r1 ⟨g1.globalCache, g1.nextId + 1⟩ :=
  ⟨rfl, Nat.le_succ _, fun h => h, fun _ _ _ _ => ⟨rfl, rfl⟩⟩

lemma resolveDepsWith_evolves
    (getOne : ServiceInjector → GlobalState → Nat →
      Except JsError Value × ServiceInjector × GlobalState)
    (h : ∀ r g k, Evolves r g (getOne r g k).2.1 (getOne r g k).2.2) :
    ∀ (ds : List Nat) (r : ServiceInjector) (g : GlobalState),
      Evolves r g (resolveDepsWith getOne r g ds).2.1
        (resolveDepsWith getOne r g ds).2.2
  | [], r, g => evolves_refl r g
  | d :: ds, r, g => by
    rcases hgd : getOne r g d with ⟨res, r1, g1⟩
    have h1 : Evolves r g r1 g1 := by
      have hh := h r g d; rw [hgd] at hh; exact hh
    cases res with
    | error e => simp only [resolveDepsWith, hgd]; exact h1
    | ok v =>
      rcases hrest : resolveDepsWith getOne r1 g1 ds with ⟨res2, r2, g2⟩
      have h2 : Evolves r1 g1 r2 g2 := by
        have hh := resolveDepsWith_evolves getOne h ds r1 g1
        rw [hrest] at hh; exact hh
      cases res2 with
      | error e =>
        simp only [resolveDepsWith, hgd, hrest]
        exact evolves_trans h1 h2
      | ok vs =>
        simp only [resolveDepsWith, hgd, hrest]
        exact evolves_trans h1 h2

lemma constructWith_evolves
    (getOne : ServiceInjector → GlobalState → Nat →
      Except JsError Value × ServiceInjector × GlobalState)
    (h : ∀ r g k, Evolves r g (getOne r g k).2.1 (getOne r g k).2.2)
    (r : ServiceInjector) (g : GlobalState) (key : Nat) (dsc : Descriptor)
    (hk : lookupKV r.factories key = some dsc) :
    Evolves r g (constructWith getOne r g key dsc).2.1
      (constructWith getOne r g key dsc).2.2 := by
  rcases hdeps : resolveDepsWith getOne r g dsc.deps with ⟨res, r1, g1⟩
  have h1 : Evolves r g r1 g1 := by
    have hh := resolveDepsWith_evolves getOne h dsc.deps r g
    rw [hdeps] at hh; exact hh
  have hk1 : lookupKV r1.factories key = some dsc := by rw [h1.1]; exact hk
  cases res with
  | error e => simp only [constructWith, hdeps]; exact h1
  | ok vs =>
    rcases hf : dsc.factory vs g1.nextId with e | inst
    · simp only [constructWith, hdeps, hf]
      exact evolves_trans h1 evolves_bump
    · cases hlc : dsc.lifecycle with
      | GlobalSingleton =>
        cases hgc : g1.globalCache with
        | none =>
          simp only [constructWith, hdeps, hf, hlc, hgc]
          have hb : Evolves r1 g1 r1 ⟨none, g1.nextId + 1⟩ := by
            rw [← hgc]; exact evolves_bump
          exact evolves_trans h1 hb
        | some gc =>
          simp only [constructWith, hdeps, hf, hlc, hgc]
          refine evolves_trans h1 ⟨rfl, Nat.le_succ _, ?_, ?_⟩
          · intro hnone; rw [hgc] at hnone; exact absurd hnone (by simp)
          · intro j dj hj hje
            have hne : ¬ (j = key) := by
              intro hjk; subst hjk
              rw [hk1] at hj
              have hdd : dj = dsc := (Option.some.inj hj).symm
              rw [hdd, hlc] at hje; exact absurd hje (by simp)
            refine ⟨rfl, ?_⟩
            show lookupKV ((key, inst) :: gc) j = optLookup g1.globalCache j
            rw [hgc]
            show (if j = key then some inst else lookupKV gc j) = lookupKV gc j
            simp [hne]
      | LocalSingleton =>
        simp only [constructWith, hdeps, hf, hlc]
        refine evolves_trans h1 ⟨rfl, Nat.le_succ _, fun hh => hh, ?_⟩
        intro j dj hj hje
        have hne : ¬ (j = key) := by
          intro hjk; subst hjk
          rw [hk1] at hj
          have hdd : dj = dsc := (Option.some.inj hj).symm
          rw [hdd, hlc] at hje; exact absurd hje (by simp)
        refine ⟨?_, rfl⟩
        show (if j = key then some inst else lookupKV r1.cache j) = lookupKV r1.cache j
        simp [hne]
      | Ephemeral =>
        simp only [constructWith, hdeps, hf, hlc]
        exact evolves_trans h1 evolves_bump

lemma getFuel_evolves :
    ∀ (fuel : Nat) (r : ServiceInjector) (g : GlobalState) (k : Nat),
      Evolves r g (getFuel fuel r g k).2.1 (getFuel fuel r g k).2.2
  | 0, r, g, _ => evolves_refl r g
  | fuel + 1, r, g, k => by
    have hone : ∀ (r' : ServiceInjector) (g' : GlobalState) (k' : Nat),
        Evolves r' g' (getFuel fuel r' g' k').2.1 (getFuel fuel r' g' k').2.2 :=
      fun r' g' k' => getFuel_evolves fuel r' g' k'
    cases hk : lookupKV r.factories k with
    | none => simp only [getFuel, hk]; exact evolves_refl r g
    | some dsc =>
      cases hlc : dsc.lifecycle with
      | GlobalSingleton =>
        cases hgc : g.globalCache with
        | none => simp only [getFuel, hk, hlc, hgc]; exact evolves_refl r g
        | some gc =>
          cases hv : lookupKV gc k with
          | some v =>
            cases htr : truthy v with
            | true =>
              simp only [getFuel, hk, hlc, hgc, hv, htr, if_true]
              exact evolves_refl r g
            | false =>
              simp only [getFuel, hk, hlc, hgc, hv, htr, if_false]
              exact constructWith_evolves _ hone r g k dsc hk
          | none =>
            simp only [getFuel, hk, hlc, hgc, hv]
            exact constructWith_evolves _ hone r g k dsc hk
      | LocalSingleton =>
        cases hv : lookupKV r.cache k with
        | some v =>
          cases htr : truthy v with
          | true =>
            simp only [getFuel, hk, hlc, hv, htr, if_true]
            exact evolves_refl r g
          | false =>
            simp only [getFuel, hk, hlc, hv, htr, if_false]
            exact constructWith_evolves _ hone r g k dsc hk
        | none =>
          simp only [getFuel, hk, hlc, hv]
          exact constructWith_evolves _ hone r g k dsc hk
      | Ephemeral =>
        simp only [getFuel, hk, hlc]
        exact constructWith_evolves _ hone r g k dsc hk

/-! ## Branch characterizations

Unfolding lemmas that expose, one branch at a time, the control flow of
`get` (lines 172-193) and of the construction path (lines 185-192). -/

lemma resolveDepsWith_nil
    (getOne : ServiceInjector → GlobalState → Nat →
      Except JsError Value × ServiceInjector × GlobalState)
    (r : ServiceInjector) (g : GlobalState) :
    resolveDepsWith getOne r g [] = (.ok [], r, g) := rfl

lemma resolveDepsWith_cons_ok
    {getOne : ServiceInjector → GlobalState → Nat →
      Except JsError Value × ServiceInjector × GlobalState}
    {r g d v r1 g1 ds vs r2 g2}
    (h1 : getOne r g d = (.ok v, r1, g1))
    (h2 : resolveDepsWith getOne r1 g1 ds = (.ok vs, r2, g2)) :
    resolveDepsWith getOne r g (d :: ds) = (.ok (v :: vs), r2, g2) := by
  simp only [resolveDepsWith, h1, h2]

lemma resolveDepsWith_cons_err
    {getOne : ServiceInjector → GlobalState → Nat →
      Except JsError Value × ServiceInjector × GlobalState}
    {r g d e r1 g1} (ds : List Nat)
    (h1 : getOne r g d = (.error e, r1, g1)) :
    resolveDepsWith getOne r g (d :: ds) = (.error e, r1, g1) := by
  simp only [resolveDepsWith, h1]

lemma constructWith_deps_error
    {getOne : ServiceInjector → GlobalState → Nat →
      Except JsError Value × ServiceInjector × GlobalState}
    {r g key dsc e r1 g1}
    (hdeps : resolveDepsWith getOne r g dsc.deps = (.error e, r1, g1)) :
    constructWith getOne r g key dsc = (.error e, r1, g1) := by
  simp only [constructWith, hdeps]

lemma constructWith_factory_error
    {getOne : ServiceInjector → GlobalState → Nat →
      Except JsError Value × ServiceInjector × GlobalState}
    {r g key dsc vs r1 g1 e}
    (hdeps : resolveDepsWith getOne r g dsc.deps = (.ok vs, r1, g1))
    (hf : dsc.factory vs g1.nextId = .error e) :
    constructWith getOne r g key dsc =
      (.error e, r1, ⟨g1.globalCache, g1.nextId + 1⟩) := by
  simp only [constructWith, hdeps, hf]

lemma constructWith_ephemeral_eq
    {getOne : ServiceInjector → GlobalState → Nat →
      Except JsError Value × ServiceInjector × GlobalState}
    {r g key dsc vs r1 g1}
    (hdeps : resolveDepsWith getOne r g dsc.deps = (.ok vs, r1, g1))
    (hlc : dsc.lifecycle = .Ephemeral) :
    constructWith getOne r g key dsc =
      (dsc.factory vs g1.nextId, r1, ⟨g1.globalCache, g1.nextId + 1⟩) := by
  cases hf : dsc.factory vs g1.nextId with
  | error e => simp only [constructWith, hdeps, hf]
  | ok inst => simp only [constructWith, hdeps, hf, hlc]

lemma constructWith_local_ok_eq
    {getOne : ServiceInjector → GlobalState → Nat →
      Except JsError Value × ServiceInjector × GlobalState}
    {r g key dsc vs r1 g1 inst}
    (hdeps : resolveDepsWith getOne r g dsc.deps = (.ok vs, r1, g1))
    (hlc : dsc.lifecycle = .LocalSingleton)
    (hf : dsc.factory vs g1.nextId = .ok inst) :
    constructWith getOne r g key dsc =
      (.ok inst, ⟨r1.factories, (key, inst) :: r1.cache⟩,
        ⟨g1.globalCache, g1.nextId + 1⟩) := by
  simp only [constructWith, hdeps, hf, hlc]

lemma constructWith_global_store_none
    {getOne : ServiceInjector → GlobalState → Nat →
      Except JsError Value × ServiceInjector × GlobalState}
    {r g key dsc vs r1 g1 inst}
    (hdeps : resolveDepsWith getOne r g dsc.deps = (.ok vs, r1, g1))
    (hlc : dsc.lifecycle = .GlobalSingleton)
    (hf : dsc.factory vs g1.nextId = .ok inst)
    (hg : g1.globalCache = none) :
    constructWith getOne r g key dsc =
      (.error .typeError, r1, ⟨none, g1.nextId + 1⟩) := by
  simp only [constructWith, hdeps, hf, hlc, hg]

lemma getFuel_unknown_key {fuel r g k} (hk : lookupKV r.factories k = none) :
    getFuel (fuel + 1) r g k = (.error .typeError, r, g) := by
  simp only [getFuel, hk]

lemma getFuel_global_none {fuel r g k dsc}
    (hk : lookupKV r.factories k = some dsc)
    (hlc : dsc.lifecycle = .GlobalSingleton)
    (hg : g.globalCache = none) :
    getFuel (fuel + 1) r g k = (.error .typeError, r, g) := by
  simp only [getFuel, hk, hlc, hg]

lemma getFuel_local_hit {fuel r g k dsc v}
    (hk : lookupKV r.factories k = some dsc)
    (hlc : dsc.lifecycle = .LocalSingleton)
    (hc : lookupKV r.cache k = some v) (ht : truthy v = true) :
    getFuel (fuel + 1) r g k = (.ok v, r, g) := by
  simp only [getFuel, hk, hlc, hc, ht, if_true]

lemma getFuel_local_miss {fuel r g k dsc}
    (hk : lookupKV r.factories k = some dsc)
    (hlc : dsc.lifecycle = .LocalSingleton)
    (hc : ∀ v, lookupKV r.cache k = some v → truthy v = false) :
    getFuel (fuel + 1) r g k =
      constructWith (fun r' g' k' => getFuel fuel r' g' k') r g k dsc := by
  cases hv : lookupKV r.cache k with
  | none => simp only [getFuel, hk, hlc, hv]
  | some v =>
    have ht := hc v hv
    simp only [getFuel, hk, hlc, hv, ht, if_false]
    rfl

lemma getFuel_ephemeral {fuel r g k dsc}
    (hk : lookupKV r.factories k = some dsc)
    (hlc : dsc.lifecycle = .Ephemeral) :
    getFuel (fuel + 1) r g k =
      constructWith (fun r' g' k' => getFuel fuel r' g' k') r g k dsc := by
  simp only [getFuel, hk, hlc]

lemma constructWith_local_ok_cached
    {getOne : ServiceInjector → GlobalState → Nat →
      Except JsError Value × ServiceInjector × GlobalState}
    {r g key dsc v r' g'}
    (hlc : dsc.lifecycle = .LocalSingleton)
    (hrun : constructWith getOne r g key dsc = (.ok v, r', g')) :
    lookupKV r'.cache key = some v := by
  rcases hdeps : resolveDepsWith getOne r g dsc.deps with ⟨res, r1, g1⟩
  cases res with
  | error e =>
    rw [constructWith_deps_error hdeps] at hrun
    simp only [Prod.mk.injEq] at hrun
    exact absurd hrun.1 (by simp)
  | ok vs =>
    cases hf : dsc.factory vs g1.nextId with
    | error e =>
      rw [constructWith_factory_error hdeps hf] at hrun
      simp only [Prod.mk.injEq] at hrun
      exact absurd hrun.1 (by simp)
    | ok inst =>
      rw [constructWith_local_ok_eq hdeps hlc hf] at hrun
      simp only [Prod.mk.injEq] at hrun
      obtain ⟨hv, hr, _⟩ := hrun
      have hvv : v = inst := by
        exact (Except.ok.inj hv).symm
      subst hvv
      rw [← hr]
      show (if key = key then some v else lookupKV r1.cache key) = some v
      simp

lemma getFuel_local_ok_cached {fuel r g k dsc v r' g'}
    (hk : lookupKV r.factories k = some dsc)
    (hlc : dsc.lifecycle = .LocalSingleton)
    (hrun : getFuel fuel r g k = (.ok v, r', g')) :
    lookupKV r'.cache k = some v := by
  cases fuel with
  | zero =>
    simp only [getFuel, Prod.mk.injEq] at hrun
    exact absurd hrun.1 (by simp)
  | succ fuel =>
    cases hv : lookupKV r.cache k with
    | some w =>
      cases htr : truthy w with
      | true =>
        rw [getFuel_local_hit hk hlc hv htr] at hrun
        simp only [Prod.mk.injEq] at hrun
        obtain ⟨hw, hr, _⟩ := hrun
        have hvv : v = w := (Except.ok.inj hw).symm
        subst hvv
        rw [← hr]; exact hv
      | false =>
        have hmiss : ∀ u, lookupKV r.cache k = some u → truthy u = false := by
          intro u hu; rw [hv] at hu
          have hwu := Option.some.inj hu
          subst hwu; exact htr
        rw [getFuel_local_miss hk hlc hmiss] at hrun
        exact constructWith_local_ok_cached hlc hrun
    | none =>
      have hmiss : ∀ u, lookupKV r.cache k = some u → truthy u = false := by
        intro u hu; rw [hv] at hu; exact absurd hu (by simp)
      rw [getFuel_local_miss hk hlc hmiss] at hrun
      exact constructWith_local_ok_cached hlc hrun

/-! ## Concrete scenario material -/

/-- A factory that allocates a fresh object each time it is invoked. -/
def allocFactory : Factory := fun _ fid => .ok (.obj fid)

/-- A factory that returns the primitive `NaN` (a falsy value that is not
strictly equal to itself). -/
def nanFactory : Factory := fun _ _ => .ok .vnan

/-- A factory that always throws a user-level exception. -/
def failFactory : Factory := fun _ _ => .error (.userError 7)

/-- A registry with one `GlobalSingleton` service under key `0`. -/
def regG1 : ServiceInjector := ⟨[(0, ⟨.GlobalSingleton, [], allocFactory⟩)], []⟩

/-- A registry descended from `regG1` by one further registration. -/
def regG1b : ServiceInjector :=
  ⟨(1, ⟨.GlobalSingleton, [], allocFactory⟩) :: regG1.factories, []⟩

/-- Claim C1 (code bug evidence): the spec promises that `get` on a
`GlobalSingleton` key returns one cached, reference-equal instance across
every descended registry, but the static `globalCache` field is declared
without an initializer and never assigned, so the very first
`GlobalSingleton` resolution reads `undefined[key]` and throws a host
`TypeError` — on `regG1` (key `0` registered `GlobalSingleton`) and equally
on the descended registry `regG1b`, `get` returns a `TypeError` and leaves
all state unchanged instead of ever producing an instance. -/
theorem c1_globalSingleton_get_throwsTypeError :
    getFuel 5 regG1 initState 0 = (.error .typeError, regG1, initState) ∧
    regG1.registerFactory 1 [] allocFactory .GlobalSingleton = .ok regG1b ∧
    getFuel 5 regG1b initState 0 = (.error .typeError, regG1b, initState) :=
  ⟨rfl, rfl, rfl⟩

/-- Claim C2 (code bug evidence): registering with an unregistered
dependency key (here key `7`, absent from the empty root registry) is meant
to throw a `MissingDependencyError` naming the key, but the error message
is built by the template literal `Missing dependency: ${dep}` which applies
ECMAScript `ToString` to the symbol `dep` — and `ToString` of a Symbol
throws a `TypeError` — so the call fails with a host `TypeError` before any
`MissingDependencyError` can be constructed. The receiver registry is a
pure value and is returned unchanged in the sense that no injector is
produced and nothing is mutated. -/
theorem c2_registerFactory_missingDep_throwsTypeError :
    rootRegistry.registerFactory 3 [7] allocFactory .GlobalSingleton =
      .error .typeError ∧
    ∀ msg, JsError.typeError ≠ JsError.missingDependency msg :=
  ⟨rfl, fun _ h => JsError.noConfusion h⟩

/-- Claim C3: a successful `registerFactory` call produces a new injector
whose factories map is exactly the old map with the one new entry added at
the front (the JavaScript spread `{...this.factories, [key]: ...}` with the
new binding shadowing), whose cache is the (copied) old cache, and whose
lookups agree with the old injector on every other key; the receiver is a
persistent value that the call never modifies, so its own `get` behaviour
is untouched. -/
theorem c3_registerFactory_persistent_update
    (r : ServiceInjector) (key : Nat) (deps : List Nat) (f : Factory)
    (lc : Lifecycle) (r2 : ServiceInjector)
    (h : r.registerFactory key deps f lc = .ok r2) :
    r2.factories = (key, ⟨lc, deps, f⟩) :: r.factories ∧
    r2.cache = r.cache ∧
    lookupKV r2.factories key = some ⟨lc, deps, f⟩ ∧
    ∀ k', ¬ (k' = key) → lookupKV r2.factories k' = lookupKV r.factories k' := by
  cases hm : firstMissingDep r.factories deps with
  | some d =>
    rw [ServiceInjector.registerFactory, hm] at h
    exact absurd h (by simp [toStringOfSymbol])
  | none =>
    rw [ServiceInjector.registerFactory, hm] at h
    have h2 : r2 = ⟨(key, ⟨lc, deps, f⟩) :: r.factories, r.cache⟩ :=
      (Except.ok.inj h).symm
    subst h2
    refine ⟨rfl, rfl, ?_, ?_⟩
    · show (if key = key then some (⟨lc, deps, f⟩ : Descriptor)
        else lookupKV r.factories key) = some ⟨lc, deps, f⟩
      simp
    · intro k' hne
      show (if k' = key then some (⟨lc, deps, f⟩ : Descriptor)
        else lookupKV r.factories k') = lookupKV r.factories k'
      simp [hne]

/-- Witness for C3 at a concrete input: registering key `0` on the empty
root registry succeeds and yields exactly the one-entry factories map with
an empty copied cache. -/
theorem c3_witness :
    rootRegistry.registerFactory 0 [] allocFactory .LocalSingleton =
      .ok ⟨[(0, ⟨.LocalSingleton, [], allocFactory⟩)], []⟩ ∧
    (⟨[(0, ⟨.LocalSingleton, [], allocFactory⟩)], []⟩ : ServiceInjector).factories =
      (0, ⟨.LocalSingleton, [], allocFactory⟩) :: rootRegistry.factories :=
  ⟨rfl, (c3_registerFactory_persistent_update rootRegistry 0 [] allocFactory
    .LocalSingleton ⟨[(0, ⟨.LocalSingleton, [], allocFactory⟩)], []⟩ rfl).1⟩

/-- Claim C4: the static `globalCache` field is declared without an
initializer and no code path ever assigns an object to it, so (a) `get` on
any key registered `GlobalSingleton` throws a host `TypeError` at the cache
*read* while the field is still `undefined`, leaving injector and state
untouched; (b) even the cache *store* after a successful construction
would operate on `undefined` and throw a `TypeError`; (c) every `get`
preserves `globalCache = undefined`, so the field never becomes an object;
and (d) the process starts with the field `undefined`. -/
theorem c4_uninitialized_globalCache :
    (∀ fuel r g k dsc, g.globalCache = none →
      lookupKV r.factories k = some dsc →
      dsc.lifecycle = .GlobalSingleton →
      getFuel (fuel + 1) r g k = (.error .typeError, r, g)) ∧
    (∀ (getOne : ServiceInjector → GlobalState → Nat →
        Except JsError Value × ServiceInjector × GlobalState)
      r g key dsc vs r1 g1 inst,
      resolveDepsWith getOne r g dsc.deps = (.ok vs, r1, g1) →
      dsc.lifecycle = .GlobalSingleton →
      dsc.factory vs g1.nextId = .ok inst →
      g1.globalCache = none →
      constructWith getOne r g key dsc =
        (.error .typeError, r1, ⟨none, g1.nextId + 1⟩)) ∧
    (∀ fuel r g k, g.globalCache = none →
      ((getFuel fuel r g k).2.2).globalCache = none) ∧
    initState.globalCache = none := by
  refine ⟨?_, ?_, ?_, rfl⟩
  · intro fuel r g k dsc hg hk hlc
    exact getFuel_global_none hk hlc hg
  · intro getOne r g key dsc vs r1 g1 inst hdeps hlc hf hg
    exact constructWith_global_store_none hdeps hlc hf hg
  · intro fuel r g k hg
    exact (getFuel_evolves fuel r g k).2.2.1 hg

/-- Witness for C4 at a concrete input: on `regG1b` (keys `0` and `1`, both
`GlobalSingleton`) with the initial (uninitialized) state, `get 1` throws a
`TypeError` and the global cache is still `undefined` afterwards. -/
theorem c4_witness :
    initState.globalCache = none ∧
    lookupKV regG1b.factories 1 =
      some ⟨.GlobalSingleton, [], allocFactory⟩ ∧
    getFuel 6 regG1b initState 1 = (.error .typeError, regG1b, initState) ∧
    ((getFuel 6 regG1b initState 1).2.2).globalCache = none :=
  ⟨rfl, rfl,
    c4_uninitialized_globalCache.1 5 regG1b initState 1
      ⟨.GlobalSingleton, [], allocFactory⟩ rfl rfl rfl,
    (c4_uninitialized_globalCache.2.2.1) 6 regG1b initState 1 rfl⟩

/-! ## Claim C5 -/

/-- A factory returning the falsy primitive `false`. -/
def falseFactory : Factory := fun _ _ => .ok (.vbool false)

/-- A registry with one `GlobalSingleton` key `0` whose factory returns a
falsy value. -/
def regC5g : ServiceInjector := ⟨[(0, ⟨.GlobalSingleton, [], falseFactory⟩)], []⟩

/-- A registry with one `LocalSingleton` key `1` whose factory returns
`NaN` (falsy). -/
def regC5n : ServiceInjector := ⟨[(1, ⟨.LocalSingleton, [], nanFactory⟩)], []⟩

/-- `regC5n` after one resolution of key `1`: the falsy `NaN` has been
committed to the local cache. -/
def regC5nA : ServiceInjector := ⟨regC5n.factories, [(1, .vnan)]⟩

/-- `regC5nA` after a second resolution of key `1`: the falsy cached value
missed, construction re-ran and committed again. -/
def regC5nB : ServiceInjector := ⟨regC5n.factories, [(1, .vnan), (1, .vnan)]⟩

/-- Counterexample to claim C5 as stated: the claim covers `GlobalSingleton`
keys with falsy-returning factories and asserts every `get` call "misses
the cache and re-invokes the factory"; but on `regC5g` (key `0`,
`GlobalSingleton`, factory returning `false`) `get` throws a `TypeError`
at the uninitialized static cache and never invokes the factory at all —
the allocation counter stays `0`, so no factory invocation occurred and no
instance (identical or not) is ever produced. -/
theorem c5_counterexample :
    lookupKV regC5g.factories 0 = some ⟨.GlobalSingleton, [], falseFactory⟩ ∧
    getFuel 5 regC5g initState 0 = (.error .typeError, regC5g, initState) ∧
    ((getFuel 5 regC5g initState 0).2.2).nextId = 0 :=
  ⟨rfl, rfl, rfl⟩

/-- Claim C5 amended: for a `LocalSingleton` key whose cached value is
falsy, every `get` misses the cache (the hit test `if (maybeLocal)` demands
truthiness) and re-runs the whole construction path, re-invoking the
factory; concretely, with a `NaN`-returning factory two successive `get`
calls on the same registry each construct (the allocation counter advances
on each call) and the two results are not strictly equal (`NaN !== NaN`),
so the singleton identity guarantee holds only for truthy-producing
factories. For `GlobalSingleton` keys no caching happens either, because
`get` throws a `TypeError` at the uninitialized static cache first. -/
theorem c5_amended_falsy_never_cache_hit :
    (∀ fuel r g k dsc, lookupKV r.factories k = some dsc →
      dsc.lifecycle = .LocalSingleton →
      (∀ v, lookupKV r.cache k = some v → truthy v = false) →
      getFuel (fuel + 1) r g k =
        constructWith (fun r' g' k' => getFuel fuel r' g' k') r g k dsc) ∧
    getFuel 5 regC5n initState 1 = (.ok .vnan, regC5nA, ⟨none, 1⟩) ∧
    getFuel 5 regC5nA ⟨none, 1⟩ 1 = (.ok .vnan, regC5nB, ⟨none, 2⟩) ∧
    strictEq .vnan .vnan = false :=
  ⟨fun _ _ _ _ _ hk hlc hc => getFuel_local_miss hk hlc hc, rfl, rfl, rfl⟩

/-- Witness for the amended C5 at a concrete input: on `regC5nA`, whose
cache holds the falsy `NaN` under key `1`, `get` takes the construction
path rather than the cache hit. -/
theorem c5_witness :
    lookupKV regC5nA.cache 1 = some .vnan ∧
    truthy .vnan = false ∧
    getFuel (4 + 1) regC5nA ⟨none, 1⟩ 1 =
      constructWith (fun r' g' k' => getFuel 4 r' g' k') regC5nA ⟨none, 1⟩ 1
        ⟨.LocalSingleton, [], nanFactory⟩ :=
  ⟨rfl, rfl,
    c5_amended_falsy_never_cache_hit.1 4 regC5nA ⟨none, 1⟩ 1
      ⟨.LocalSingleton, [], nanFactory⟩ rfl rfl
      (by
        intro v hv
        have hv' : some Value.vnan = some v := hv
        have hvv := Option.some.inj hv'
        subst hvv
        rfl)⟩

/-! ## Claim C6 -/

/-- A registry where key `1` is `GlobalSingleton` with declared dependency
`[0]`, and key `0` is an `Ephemeral` allocator. -/
def regC6g : ServiceInjector :=
  ⟨[(1, ⟨.GlobalSingleton, [0], allocFactory⟩),
    (0, ⟨.Ephemeral, [], allocFactory⟩)], []⟩

/-- A factory whose result records whether it received exactly
`(obj 0, obj 1)` — i.e. the dependency values in declared order. -/
def orderProbeFactory : Factory :=
  fun args _ => .ok (.vbool (args == [Value.obj 0, Value.obj 1]))

/-- A registry where key `2` declares `deps = [0, 1]` (two `Ephemeral`
allocators) and its factory probes the positional order of its
arguments. -/
def regC6 : ServiceInjector :=
  ⟨[(2, ⟨.Ephemeral, [0, 1], orderProbeFactory⟩),
    (1, ⟨.Ephemeral, [], allocFactory⟩),
    (0, ⟨.Ephemeral, [], allocFactory⟩)], []⟩

/-- Counterexample to claim C6 as stated: the claim quantifies over *every*
key with declared deps, but for the `GlobalSingleton` key `1` of `regC6g`
(deps `[0]`) resolution does not resolve dependency `0` at all — `get`
throws a `TypeError` at the uninitialized static cache before the
dependency walk, the allocation counter stays `0` (so neither the
dependency factory nor the key's factory was ever invoked), and all state
is unchanged. -/
theorem c6_counterexample :
    lookupKV regC6g.factories 1 = some ⟨.GlobalSingleton, [0], allocFactory⟩ ∧
    getFuel 5 regC6g initState 1 = (.error .typeError, regC6g, initState) ∧
    ((getFuel 5 regC6g initState 1).2.2).nextId = 0 :=
  ⟨rfl, rfl, rfl⟩

/-- Claim C6 amended: for `Ephemeral` keys, and for `LocalSingleton` keys
on a cache miss, resolution resolves the declared dependencies head-first
in exactly the declared order via recursive `get` on the same registry,
and the factory runs only after the whole dependency list has resolved,
receiving the resolved values positionally in declared order; concretely,
a factory with `deps = [0, 1]` receives `(resolved 0, resolved 1)` — and
would observably receive the swapped pair if the order were swapped.
(`GlobalSingleton` keys instead throw a `TypeError` at the uninitialized
static cache before any dependency resolves.) -/
theorem c6_amended_deps_resolved_in_declared_order :
    (∀ (getOne : ServiceInjector → GlobalState → Nat →
        Except JsError Value × ServiceInjector × GlobalState)
      r g d v r1 g1 ds vs r2 g2,
      getOne r g d = (.ok v, r1, g1) →
      resolveDepsWith getOne r1 g1 ds = (.ok vs, r2, g2) →
      resolveDepsWith getOne r g (d :: ds) = (.ok (v :: vs), r2, g2)) ∧
    (∀ fuel r g k dsc vs r1 g1,
      lookupKV r.factories k = some dsc →
      dsc.lifecycle = .Ephemeral →
      resolveDepsWith (fun r' g' k' => getFuel fuel r' g' k') r g dsc.deps =
        (.ok vs, r1, g1) →
      getFuel (fuel + 1) r g k =
        (dsc.factory vs g1.nextId, r1, ⟨g1.globalCache, g1.nextId + 1⟩)) ∧
    (∀ fuel r g k dsc vs r1 g1 inst,
      lookupKV r.factories k = some dsc →
      dsc.lifecycle = .LocalSingleton →
      (∀ v, lookupKV r.cache k = some v → truthy v = false) →
      resolveDepsWith (fun r' g' k' => getFuel fuel r' g' k') r g dsc.deps =
        (.ok vs, r1, g1) →
      dsc.factory vs g1.nextId = .ok inst →
      getFuel (fuel + 1) r g k =
        (.ok inst, ⟨r1.factories, (k, inst) :: r1.cache⟩,
          ⟨g1.globalCache, g1.nextId + 1⟩)) ∧
    getFuel 5 regC6 initState 2 = (.ok (.vbool true), regC6, ⟨none, 3⟩) ∧
    orderProbeFactory [Value.obj 1, Value.obj 0] 2 = .ok (.vbool false) := by
  refine ⟨?_, ?_, ?_, rfl, rfl⟩
  · intro getOne r g d v r1 g1 ds vs r2 g2 h1 h2
    exact resolveDepsWith_cons_ok h1 h2
  · intro fuel r g k dsc vs r1 g1 hk hlc hdeps
    rw [getFuel_ephemeral hk hlc]
    exact constructWith_ephemeral_eq hdeps hlc
  · intro fuel r g k dsc vs r1 g1 inst hk hlc hc hdeps hf
    rw [getFuel_local_miss hk hlc hc]
    exact constructWith_local_ok_eq hdeps hlc hf

/-- Witness for the amended C6 at a concrete input: on `regC6`, resolving
the `Ephemeral` key `2` first resolves deps `[0, 1]` (to `obj 0` then
`obj 1`, in declared order) and only then invokes the order-probing
factory, which confirms it received the pair positionally in declared
order. -/
theorem c6_witness :
    resolveDepsWith (fun r' g' k' => getFuel 4 r' g' k') regC6 initState [0, 1] =
      (.ok [Value.obj 0, Value.obj 1], regC6, ⟨none, 2⟩) ∧
    getFuel (4 + 1) regC6 initState 2 =
      (orderProbeFactory [Value.obj 0, Value.obj 1] 2, regC6, ⟨none, 3⟩) :=
  ⟨rfl,
    c6_amended_deps_resolved_in_declared_order.2.1 4 regC6 initState 2
      ⟨.Ephemeral, [0, 1], orderProbeFactory⟩ [Value.obj 0, Value.obj 1]
      regC6 ⟨none, 2⟩ rfl rfl rfl⟩

/-! ## Claim C7 -/

/-- A registry with one `LocalSingleton` key `0` whose factory returns the
falsy `NaN`. -/
def regC7 : ServiceInjector := ⟨[(0, ⟨.LocalSingleton, [], nanFactory⟩)], []⟩

/-- `regC7` after one `get 0` (the falsy `NaN` was cached). -/
def regC7a : ServiceInjector := ⟨regC7.factories, [(0, .vnan)]⟩

/-- `regC7a` after a second `get 0` (the falsy value missed, construction
re-ran and committed again). -/
def regC7b : ServiceInjector := ⟨regC7.factories, [(0, .vnan), (0, .vnan)]⟩

/-- A registry with one `LocalSingleton` key `0` whose factory allocates a
fresh object. -/
def regC7L : ServiceInjector := ⟨[(0, ⟨.LocalSingleton, [], allocFactory⟩)], []⟩

/-- `regC7L` after its own `get 0` cached `obj 0`. -/
def regC7La : ServiceInjector := ⟨regC7L.factories, [(0, .obj 0)]⟩

/-- The pre-resolution fork of `regC7L` after it resolved key `0` on its
own, independently caching `obj 1`. -/
def regC7Lb : ServiceInjector := ⟨regC7L.factories, [(0, .obj 1)]⟩

/-- Counterexample to claim C7 as stated: on `regC7` (key `0`,
`LocalSingleton`, factory returning `NaN`) two successive `get 0` calls on
the same registry object both succeed, both re-run the factory (the falsy
cached `NaN` never passes the `if (maybeLocal)` truthiness test, and the
allocation counter advances on each call), and the two returned values are
`NaN` and `NaN` — which are *not* strictly equal (`NaN !== NaN`), so `get`
on the same Registry value does not always return the same
(reference-equal) instance. -/
theorem c7_counterexample :
    getFuel 5 regC7 initState 0 = (.ok .vnan, regC7a, ⟨none, 1⟩) ∧
    getFuel 5 regC7a ⟨none, 1⟩ 0 = (.ok .vnan, regC7b, ⟨none, 2⟩) ∧
    strictEq .vnan .vnan = false :=
  ⟨rfl, rfl, rfl⟩

/-- Claim C7 amended, restricted to truthy instances: (i) for a
`LocalSingleton` key whose `get` succeeded with a truthy instance, every
further `get` on the resulting registry object returns that same instance
with no state change (a pure cache hit); (ii) `fork` copies both maps, so
a fork shares the snapshot; (iii) concretely, a registry and its
pre-resolution fork each construct their own independent instance
(`obj 0` vs `obj 1`, not strictly equal), and resolving through the fork
neither affects nor is affected by resolutions through the original (the
original still returns its own cached `obj 0` afterwards). -/
theorem c7_amended_localSingleton_identity :
    (∀ fuel fuel2 r g k dsc v r' g',
      lookupKV r.factories k = some dsc →
      dsc.lifecycle = .LocalSingleton →
      getFuel fuel r g k = (.ok v, r', g') →
      truthy v = true →
      getFuel (fuel2 + 1) r' g' k = (.ok v, r', g')) ∧
    (∀ r : ServiceInjector,
      (ServiceInjector.fork r).factories = r.factories ∧
      (ServiceInjector.fork r).cache = r.cache) ∧
    ServiceInjector.fork regC7L = regC7L ∧
    getFuel 5 regC7L initState 0 = (.ok (.obj 0), regC7La, ⟨none, 1⟩) ∧
    getFuel 5 regC7L ⟨none, 1⟩ 0 = (.ok (.obj 1), regC7Lb, ⟨none, 2⟩) ∧
    strictEq (.obj 0) (.obj 1) = false ∧
    getFuel 5 regC7La ⟨none, 2⟩ 0 = (.ok (.obj 0), regC7La, ⟨none, 2⟩) := by
  refine ⟨?_, fun r => ⟨rfl, rfl⟩, rfl, rfl, rfl, rfl, rfl⟩
  intro fuel fuel2 r g k dsc v r' g' hk hlc hrun ht
  have hcache := getFuel_local_ok_cached hk hlc hrun
  have hev := getFuel_evolves fuel r g k
  rw [hrun] at hev
  have hk' : lookupKV r'.factories k = some dsc := by
    have hf := hev.1
    rw [hf]; exact hk
  exact getFuel_local_hit hk' hlc hcache ht

/-- Witness for the amended C7 at a concrete input: after `regC7L` resolved
its `LocalSingleton` key `0` to the truthy `obj 0`, a further `get 0` on
the resulting registry object is a pure cache hit returning the same
`obj 0` with no state change. -/
theorem c7_witness :
    getFuel 5 regC7L initState 0 = (.ok (.obj 0), regC7La, ⟨none, 1⟩) ∧
    truthy (.obj 0) = true ∧
    getFuel (3 + 1) regC7La ⟨none, 1⟩ 0 = (.ok (.obj 0), regC7La, ⟨none, 1⟩) :=
  ⟨rfl, rfl,
    c7_amended_localSingleton_identity.1 5 3 regC7L initState 0
      ⟨.LocalSingleton, [], allocFactory⟩ (.obj 0) regC7La ⟨none, 1⟩
      rfl rfl rfl rfl⟩

/-! ## Claim C8 -/

/-- A registry where key `1` is an `Ephemeral` allocator depending on the
`LocalSingleton` allocator key `0`. -/
def regC8 : ServiceInjector :=
  ⟨[(1, ⟨.Ephemeral, [0], allocFactory⟩),
    (0, ⟨.LocalSingleton, [], allocFactory⟩)], []⟩

/-- `regC8` after the `LocalSingleton` dependency `0` was constructed and
cached (the `Ephemeral` key `1` itself is never cached). -/
def regC8a : ServiceInjector := ⟨regC8.factories, [(0, .obj 0)]⟩

/-- Claim C8: `get` on an `Ephemeral` key never writes any cache — after
any `get`, the local-cache entry and the global-cache entry under an
`Ephemeral`-registered key are exactly what they were before; two
successive successful `get` calls on such a key (with a factory that
allocates a fresh object per invocation) return instances that are not
strictly equal; and concretely, on `regC8` the two resolutions of the
`Ephemeral` key `1` re-run its factory (yielding the distinct `obj 1` and
`obj 2`) while its `LocalSingleton` dependency `0` is constructed once and
then served from cache (only one allocation happens per re-resolution),
and key `1` never appears in the cache. -/
theorem c8_ephemeral_never_cached_and_fresh :
    (∀ fuel r g k dsc, lookupKV r.factories k = some dsc →
      dsc.lifecycle = .Ephemeral →
      lookupKV ((getFuel fuel r g k).2.1).cache k = lookupKV r.cache k ∧
      optLookup ((getFuel fuel r g k).2.2).globalCache k =
        optLookup g.globalCache k) ∧
    (∀ fuel fuel2 r g k dsc v1 r1 g1 v2 r2 g2,
      lookupKV r.factories k = some dsc →
      dsc.lifecycle = .Ephemeral →
      (∀ args fid, dsc.factory args fid = .ok (.obj fid)) →
      getFuel (fuel + 1) r g k = (.ok v1, r1, g1) →
      getFuel (fuel2 + 1) r1 g1 k = (.ok v2, r2, g2) →
      strictEq v1 v2 = false) ∧
    getFuel 5 regC8 initState 1 = (.ok (.obj 1), regC8a, ⟨none, 2⟩) ∧
    getFuel 5 regC8a ⟨none, 2⟩ 1 = (.ok (.obj 2), regC8a, ⟨none, 3⟩) ∧
    strictEq (.obj 1) (.obj 2) = false ∧
    lookupKV regC8a.cache 1 = none := by
  refine ⟨?_, ?_, rfl, rfl, rfl, rfl⟩
  · intro fuel r g k dsc hk hlc
    exact (getFuel_evolves fuel r g k).2.2.2 k dsc hk hlc
  · intro fuel fuel2 r g k dsc v1 r1 g1 v2 r2 g2 hk hlc hf h1 h2
    rw [getFuel_ephemeral hk hlc] at h1
    rcases hdeps : resolveDepsWith (fun r' g' k' => getFuel fuel r' g' k')
        r g dsc.deps with ⟨res, ra, ga⟩
    cases res with
    | error e =>
      rw [constructWith_deps_error hdeps] at h1
      simp only [Prod.mk.injEq] at h1
      exact absurd h1.1 (by simp)
    | ok vs =>
      rw [constructWith_ephemeral_eq hdeps hlc, hf vs ga.nextId] at h1
      simp only [Prod.mk.injEq] at h1
      obtain ⟨hv1, hr1, hg1⟩ := h1
      have hv1' : v1 = .obj ga.nextId := (Except.ok.inj hv1).symm
      have hevd := resolveDepsWith_evolves
        (fun r' g' k' => getFuel fuel r' g' k')
        (fun ra' ga' ka' => getFuel_evolves fuel ra' ga' ka') dsc.deps r g
      rw [hdeps] at hevd
      have hk1 : lookupKV r1.factories k = some dsc := by
        rw [← hr1, hevd.1]; exact hk
      rw [getFuel_ephemeral hk1 hlc] at h2
      rcases hdeps2 : resolveDepsWith (fun r' g' k' => getFuel fuel2 r' g' k')
          r1 g1 dsc.deps with ⟨res2, rb, gb⟩
      cases res2 with
      | error e =>
        rw [constructWith_deps_error hdeps2] at h2
        simp only [Prod.mk.injEq] at h2
        exact absurd h2.1 (by simp)
      | ok vs2 =>
        rw [constructWith_ephemeral_eq hdeps2 hlc, hf vs2 gb.nextId] at h2
        simp only [Prod.mk.injEq] at h2
        obtain ⟨hv2, _, _⟩ := h2
        have hv2' : v2 = .obj gb.nextId := (Except.ok.inj hv2).symm
        have hevd2 := resolveDepsWith_evolves
          (fun r' g' k' => getFuel fuel2 r' g' k')
          (fun ra' ga' ka' => getFuel_evolves fuel2 ra' ga' ka') dsc.deps r1 g1
        rw [hdeps2] at hevd2
        have hmono : g1.nextId ≤ gb.nextId := hevd2.2.1
        have hglt : ga.nextId < gb.nextId := by
          have hgn : g1.nextId = ga.nextId + 1 := by rw [← hg1]
          omega
        rw [hv1', hv2']
        simp only [strictEq, beq_eq_false_iff_ne, ne_eq]
        omega

/-- Witness for C8 at a concrete input: the two successive resolutions of
the `Ephemeral` key `1` on `regC8` yield `obj 1` and then `obj 2`, which
are not strictly equal. -/
theorem c8_witness :
    getFuel (4 + 1) regC8 initState 1 = (.ok (.obj 1), regC8a, ⟨none, 2⟩) ∧
    getFuel (4 + 1) regC8a ⟨none, 2⟩ 1 = (.ok (.obj 2), regC8a, ⟨none, 3⟩) ∧
    strictEq (.obj 1) (.obj 2) = false :=
  ⟨rfl, rfl,
    c8_ephemeral_never_cached_and_fresh.2.1 4 4 regC8 initState 1
      ⟨.Ephemeral, [0], allocFactory⟩ (.obj 1) regC8a ⟨none, 2⟩
      (.obj 2) regC8a ⟨none, 3⟩ rfl rfl (fun _ _ => rfl) rfl rfl⟩

/-! ## Claims C9 and C10 -/

lemma registerFactory_ok_eq {r : ServiceInjector} {key : Nat} {deps : List Nat}
    {f : Factory} {lc : Lifecycle} {r2 : ServiceInjector}
    (h : r.registerFactory key deps f lc = .ok r2) :
    r2 = ⟨(key, ⟨lc, deps, f⟩) :: r.factories, r.cache⟩ := by
  cases hm : firstMissingDep r.factories deps with
  | some d =>
    rw [ServiceInjector.registerFactory, hm] at h
    exact absurd h (by simp [toStringOfSymbol])
  | none =>
    rw [ServiceInjector.registerFactory, hm] at h
    exact (Except.ok.inj h).symm

/-- A registry with one `LocalSingleton` allocator under key `0`. -/
def regC9 : ServiceInjector := ⟨[(0, ⟨.LocalSingleton, [], allocFactory⟩)], []⟩

/-- `regC9` after `get 0` cached `obj 0`. -/
def regC9a : ServiceInjector := ⟨regC9.factories, [(0, .obj 0)]⟩

/-- The registry produced by `regC9a.registerFactory` for a new key `1`:
note its cache carries the copied `LocalSingleton` entry. -/
def regC9b : ServiceInjector :=
  ⟨(1, ⟨.Ephemeral, [], allocFactory⟩) :: regC9a.factories, regC9a.cache⟩

/-- The registry produced by `regC9a.registerFactory` for a new key `2`,
used by the amended-claim witness. -/
def regC9c : ServiceInjector :=
  ⟨(2, ⟨.Ephemeral, [], allocFactory⟩) :: regC9a.factories, regC9a.cache⟩

/-- Counterexample to claim C9 as stated: the claim says a registry
produced by `registerFactory` "does not carry r's cached LocalSingleton
instances"; but `registerFactory` copies the current cache exactly like
`fork` does (`{ ...this.cache }`, line 130) — after `regC9` caches `obj 0`
under the `LocalSingleton` key `0`, the registry `regC9b` produced by
`registerFactory` returns that very same cached `obj 0` from `get 0`,
with no new construction (the allocation counter does not move). -/
theorem c9_counterexample :
    getFuel 5 regC9 initState 0 = (.ok (.obj 0), regC9a, ⟨none, 1⟩) ∧
    regC9a.registerFactory 1 [] allocFactory .Ephemeral = .ok regC9b ∧
    getFuel 5 regC9b ⟨none, 1⟩ 0 = (.ok (.obj 0), regC9b, ⟨none, 1⟩) ∧
    strictEq (.obj 0) (.obj 0) = true :=
  ⟨rfl, rfl, rfl, rfl⟩

/-- Claim C9 amended: a Registry's local cache is *copied* (snapshotted)
both by `fork` and by `registerFactory` — a successful `registerFactory`
returns a registry whose cache equals the receiver's current cache, just
as `fork` does — so a truthy `LocalSingleton` instance already cached in
`r` is returned unchanged (same instance, no state change) by `get` on
`r.fork()` *and* on any registry produced by `r.registerFactory` under a
different key. The caches are independent copies afterwards, not shared by
reference. -/
theorem c9_amended_registerFactory_also_copies_cache :
    (∀ (r : ServiceInjector) key deps f lc (r2 : ServiceInjector),
      r.registerFactory key deps f lc = .ok r2 → r2.cache = r.cache) ∧
    (∀ r : ServiceInjector, (ServiceInjector.fork r).cache = r.cache) ∧
    (∀ fuel (r : ServiceInjector) g k dsc v key2 deps2 f2 lc2
      (r2 : ServiceInjector),
      lookupKV r.factories k = some dsc →
      dsc.lifecycle = .LocalSingleton →
      lookupKV r.cache k = some v →
      truthy v = true →
      ¬ (k = key2) →
      r.registerFactory key2 deps2 f2 lc2 = .ok r2 →
      getFuel (fuel + 1) r2 g k = (.ok v, r2, g)) ∧
    (∀ fuel (r : ServiceInjector) g k dsc v,
      lookupKV r.factories k = some dsc →
      dsc.lifecycle = .LocalSingleton →
      lookupKV r.cache k = some v →
      truthy v = true →
      getFuel (fuel + 1) (ServiceInjector.fork r) g k =
        (.ok v, ServiceInjector.fork r, g)) := by
  refine ⟨?_, fun r => rfl, ?_, ?_⟩
  · intro r key deps f lc r2 h
    rw [registerFactory_ok_eq h]
  · intro fuel r g k dsc v key2 deps2 f2 lc2 r2 hk hlc hc ht hne h
    have h2 := registerFactory_ok_eq h
    subst h2
    have hk2 : lookupKV
        (⟨(key2, ⟨lc2, deps2, f2⟩) :: r.factories, r.cache⟩ :
          ServiceInjector).factories k = some dsc := by
      show (if k = key2 then some (⟨lc2, deps2, f2⟩ : Descriptor)
        else lookupKV r.factories k) = some dsc
      simp only [hne, if_false]
      exact hk
    exact getFuel_local_hit hk2 hlc hc ht
  · intro fuel r g k dsc v hk hlc hc ht
    exact getFuel_local_hit (hk : lookupKV (ServiceInjector.fork r).factories k = some dsc) hlc hc ht

/-- Witness for the amended C9 at a concrete input: registering a new key
`2` on `regC9a` (whose cache holds `obj 0` under the `LocalSingleton` key
`0`) yields `regC9c`, and `get 0` on `regC9c` is a pure cache hit
returning the same `obj 0`. -/
theorem c9_witness :
    regC9a.registerFactory 2 [] allocFactory .Ephemeral = .ok regC9c ∧
    getFuel (4 + 1) regC9c ⟨none, 1⟩ 0 = (.ok (.obj 0), regC9c, ⟨none, 1⟩) :=
  ⟨rfl,
    c9_amended_registerFactory_also_copies_cache.2.2.1 4 regC9a ⟨none, 1⟩ 0
      ⟨.LocalSingleton, [], allocFactory⟩ (.obj 0) 2 [] allocFactory
      .Ephemeral regC9c rfl rfl rfl rfl (by decide) rfl⟩

/-- A registry with one `LocalSingleton` key `0` whose factory always
throws `userError 7`. -/
def regC10 : ServiceInjector := ⟨[(0, ⟨.LocalSingleton, [], failFactory⟩)], []⟩

/-- Claim C10: a factory failure is neither caught nor wrapped by the
container — (a) on the construction path, once the dependencies have
resolved, a factory that throws `e` makes the whole construction return
exactly `e`, with the state exactly as the dependency walk left it (plus
the consumed allocation id): no cache, global or local, is touched by the
failed construction; (b) the same at the `get` level for `Ephemeral` keys
and for `LocalSingleton` keys on a cache miss; (c) the same for `make`;
and (d) concretely, on `regC10` the failing factory's `userError 7`
surfaces unchanged from `get`, nothing is cached (the registry value is
unchanged), and a subsequent `get` re-fails identically rather than
observing any cached instance from the failed attempt. -/
theorem c10_factory_failure_propagates_uncached :
    (∀ (getOne : ServiceInjector → GlobalState → Nat →
        Except JsError Value × ServiceInjector × GlobalState)
      r g key dsc vs r1 g1 e,
      resolveDepsWith getOne r g dsc.deps = (.ok vs, r1, g1) →
      dsc.factory vs g1.nextId = .error e →
      constructWith getOne r g key dsc =
        (.error e, r1, ⟨g1.globalCache, g1.nextId + 1⟩)) ∧
    (∀ fuel r g k dsc vs r1 g1 e,
      lookupKV r.factories k = some dsc →
      (dsc.lifecycle = .Ephemeral ∨
        (dsc.lifecycle = .LocalSingleton ∧
          ∀ v, lookupKV r.cache k = some v → truthy v = false)) →
      resolveDepsWith (fun r' g' k' => getFuel fuel r' g' k') r g dsc.deps =
        (.ok vs, r1, g1) →
      dsc.factory vs g1.nextId = .error e →
      getFuel (fuel + 1) r g k =
        (.error e, r1, ⟨g1.globalCache, g1.nextId + 1⟩)) ∧
    (∀ fuel r g depKeys f vs r1 g1 e,
      resolveDepsWith (fun r' g' k' => getFuel fuel r' g' k') r g depKeys =
        (.ok vs, r1, g1) →
      f vs g1.nextId = .error e →
      makeFuel fuel r g depKeys f =
        (.error e, r1, ⟨g1.globalCache, g1.nextId + 1⟩)) ∧
    getFuel 5 regC10 initState 0 = (.error (.userError 7), regC10, ⟨none, 1⟩) ∧
    getFuel 5 regC10 ⟨none, 1⟩ 0 =
      (.error (.userError 7), regC10, ⟨none, 2⟩) := by
  refine ⟨?_, ?_, ?_, rfl, rfl⟩
  · intro getOne r g key dsc vs r1 g1 e hdeps hf
    exact constructWith_factory_error hdeps hf
  · intro fuel r g k dsc vs r1 g1 e hk hmiss hdeps hf
    cases hmiss with
    | inl heph =>
      rw [getFuel_ephemeral hk heph]
      exact constructWith_factory_error hdeps hf
    | inr hloc =>
      rw [getFuel_local_miss hk hloc.1 hloc.2]
      exact constructWith_factory_error hdeps hf
  · intro fuel r g depKeys f vs r1 g1 e hdeps hf
    rw [makeFuel, hdeps]
    show (f vs g1.nextId, r1,
      (⟨g1.globalCache, g1.nextId + 1⟩ : GlobalState)) = _
    rw [hf]

/-- Witness for C10 at a concrete input: `make` with the always-failing
factory and no dependencies surfaces exactly `userError 7`. -/
theorem c10_witness :
    resolveDepsWith (fun r' g' k' => getFuel 5 r' g' k') rootRegistry initState [] =
      (.ok [], rootRegistry, initState) ∧
    makeFuel 5 rootRegistry initState [] failFactory =
      (.error (.userError 7), rootRegistry, ⟨none, 1⟩) :=
  ⟨rfl,
    c10_factory_failure_propagates_uncached.2.2.1 5 rootRegistry initState
      [] failFactory [] rootRegistry initState (.userError 7) rfl rfl⟩
